import Mathlib

/- Shallow embedding of src/smarthouse/persistence.py (class SmartHouseRepository)
   together with the parts of the smarthouse domain module that the repository
   manipulates. The domain module itself is not among the provided sources, so
   its data model is modelled from the spec (sections 3 and 4.1); every
   repository operation is translated from the source file directly.

   Conventions of the embedding:
   - SQLite REAL values are rationals; SQL NULL is Option.none.
   - An ISO-8601 timestamp string is the Timestamp structure below; the numeric
     key Timestamp.key is order-isomorphic to lexicographic comparison of the
     zero-padded strings, which is what ORDER BY over such strings computes,
     and agrees with ORDER BY datetime(ts) for well-formed stamps.
   - A query that sorts is List.insertionSort, LIMIT is sqlLimit, fetchone is
     the head of the result list, an INNER JOIN is a List.flatMap producing one
     row per matching pair. -/

namespace SH

/-- Calendar date, standing for an ISO formatted date string YYYY-MM-DD. -/
structure Date where
  year : Nat
  month : Nat
  day : Nat
deriving DecidableEq

/-- Numeric key that is order-isomorphic to lexicographic comparison of the
zero-padded date strings (months and days are below 100). -/
def Date.key (d : Date) : Nat := (d.year * 100 + d.month) * 100 + d.day

/-- Timestamp, standing for an ISO formatted string YYYY-MM-DD HH:MM:SS. -/
structure Timestamp where
  date : Date
  hour : Nat
  minute : Nat
  second : Nat
deriving DecidableEq

/-- Numeric key that is order-isomorphic to lexicographic comparison of the
zero-padded timestamp strings. -/
def Timestamp.key (t : Timestamp) : Nat :=
  ((t.date.key * 100 + t.hour) * 100 + t.minute) * 100 + t.second

/-- Key of the string obtained by appending a 00:00:00 time of day to a date,
as the lower bound predicate of the temperature query builds it. -/
def Date.startOfDayKey (d : Date) : Nat := d.key * 1000000

/-- Key of the string obtained by appending a 23:59:59 time of day to a date,
as the upper bound predicate of the temperature query builds it. -/
def Date.endOfDayKey (d : Date) : Nat := d.key * 1000000 + 235959

/-- A row of the table rooms(id, floor, area, name). -/
structure RoomRow where
  id : Nat
  floor : Nat
  area : ℚ
  name : String
deriving DecidableEq

/-- A row of the table devices(id, room, kind, category, supplier, product). -/
structure DeviceRow where
  id : String
  room : Nat
  kind : String
  category : String
  supplier : String
  product : String
deriving DecidableEq

/-- A row of the table states(device, state); the state column is nullable. -/
structure StateRow where
  device : String
  state : Option ℚ
deriving DecidableEq

/-- A row of the table measurements(device, ts, value, unit). -/
structure MeasRow where
  device : String
  ts : Timestamp
  value : ℚ
  unit : String
deriving DecidableEq

/-- The SQLite database the repository talks to. -/
structure Database where
  rooms : List RoomRow
  devices : List DeviceRow
  states : List StateRow
  measurements : List MeasRow
deriving DecidableEq

/-- Modelled from the spec: actuator state in the smarthouse domain module
(not under src) is a tagged value, off, running (boolean on, no setpoint) or
a numeric setpoint. -/
inductive ActState where
  | off : ActState
  | running : ActState
  | numeric : ℚ → ActState
deriving DecidableEq

/-- Modelled from the spec: the Measurement value object of the domain module,
a timestamp, a numeric value and a unit string. -/
structure Measurement where
  timestamp : Timestamp
  value : ℚ
  unit : String
deriving DecidableEq

/-- Modelled from the spec: the device variants of the domain module: Sensor,
Actuator, and ActuatorWithSensor which has both capabilities. -/
inductive DeviceVariant where
  | sensor : DeviceVariant
  | actuator : ActState → DeviceVariant
  | actuatorWithSensor : ActState → DeviceVariant
deriving DecidableEq

/-- Modelled from the spec: an in-memory device of the domain module, with its
opaque string id, model name, supplier, kind, and the room (by storage id) it
is registered in. -/
structure Device where
  id : String
  product : String
  supplier : String
  kind : String
  room : Nat
  variant : DeviceVariant
deriving DecidableEq

/-- The isinstance Actuator test of the source: ActuatorWithSensor counts as
an Actuator as well. -/
def Device.isActuator (d : Device) : Bool :=
  match d.variant with
  | .sensor => false
  | .actuator _ => true
  | .actuatorWithSensor _ => true

/-- The state attribute of a device with actuator capability. -/
def Device.actState (d : Device) : Option ActState :=
  match d.variant with
  | .sensor => none
  | .actuator s => some s
  | .actuatorWithSensor s => some s

/-- Modelled from the spec: the state transitions turn_off and turn_on applied
by the load, as one assignment of the decoded state. A sensor is unchanged. -/
def Device.setState (d : Device) (s : ActState) : Device :=
  match d.variant with
  | .sensor => d
  | .actuator _ => { d with variant := .actuator s }
  | .actuatorWithSensor _ => { d with variant := .actuatorWithSensor s }

/-- Modelled from the spec: the Room of the domain module; db_id is the
storage assigned id, absent until the room is persisted. -/
structure Room where
  db_id : Option Nat
  floor : Nat
  area : ℚ
  name : String
deriving DecidableEq

/-- Modelled from the spec: the SmartHouse aggregate: registered floor levels,
rooms and devices. -/
structure SmartHouse where
  floors : List Nat
  rooms : List Room
  devices : List Device
deriving DecidableEq

/-- Python list indexing, which wraps a negative index around the end and
fails outside the valid range. -/
def pyIndex (l : List α) (i : Int) : Option α :=
  if 0 ≤ i then l.get? i.toNat
  else if (-i).toNat ≤ l.length then l.get? (l.length - (-i).toNat) else none

/-- SELECT MAX(floor) from rooms: NULL on an empty table, which makes the
range call of the source fail, hence none on an empty rooms table. -/
def maxFloor (rooms : List RoomRow) : Option Nat :=
  match rooms with
  | [] => none
  | r :: rs => some ((rs.map RoomRow.floor).foldl max r.floor)

/-- The room construction loop of load_smarthouse_deep: each room row resolves
its floor object by indexing floors with its floor number minus one and is
registered carrying its stored id. -/
def buildRooms (floors : List Nat) : List RoomRow → Option (List Room)
  | [] => some []
  | r :: rs =>
    match pyIndex floors ((r.floor : Int) - 1) with
    | none => none
    | some fl =>
      match buildRooms floors rs with
      | none => none
      | some rest =>
        some ({ db_id := some r.id, floor := fl, area := r.area, name := r.name } :: rest)

/-- The device construction loop of load_smarthouse_deep: the dictionary
lookup of the referenced room fails when no room row carries that id;
category sensor registers a Sensor, category actuator registers an
ActuatorWithSensor for a Heat Pump kind and a plain Actuator otherwise, and
any other category registers no device at all. A fresh actuator starts off
(modelled from the spec; the state is overwritten by the resolution loop). -/
def buildDevices (roomIds : List Nat) : List DeviceRow → Option (List Device)
  | [] => some []
  | d :: ds =>
    if d.room ∈ roomIds then
      match buildDevices roomIds ds with
      | none => none
      | some rest =>
        if d.category = "sensor" then
          some ({ id := d.id, product := d.product, supplier := d.supplier,
                  kind := d.kind, room := d.room, variant := .sensor } :: rest)
        else if d.category = "actuator" then
          if d.kind = "Heat Pump" then
            some ({ id := d.id, product := d.product, supplier := d.supplier,
                    kind := d.kind, room := d.room,
                    variant := .actuatorWithSensor .off } :: rest)
          else
            some ({ id := d.id, product := d.product, supplier := d.supplier,
                    kind := d.kind, room := d.room,
                    variant := .actuator .off } :: rest)
        else some rest
    else none

/-- fetchone on SELECT state FROM states WHERE device = id: the first matching
row, or none when there is no such row (in which case the subscript the source
takes on the fetchone result fails). -/
def findStateRow (states : List StateRow) (id : String) : Option (Option ℚ) :=
  (states.find? (fun r => r.device = id)).map StateRow.state

/-- The state decoding of load_smarthouse_deep: NULL turns the actuator off,
the exact value 1.0 turns it on without setpoint, any other value turns it on
with that value as the setpoint. -/
def decodeState (v : Option ℚ) : ActState :=
  match v with
  | none => .off
  | some x => if x = 1 then .running else .numeric x

/-- The state resolution loop of load_smarthouse_deep: every device with the
actuator capability reads its states row, failing like the source does on a
missing row, and applies the decoded transition. -/
def assignStates (states : List StateRow) : List Device → Option (List Device)
  | [] => some []
  | d :: ds =>
    if d.isActuator then
      match findStateRow states d.id with
      | none => none
      | some v =>
        match assignStates states ds with
        | none => none
        | some rest => some (d.setState (decodeState v) :: rest)
    else
      match assignStates states ds with
      | none => none
      | some rest => some (d :: rest)

/-- load_smarthouse_deep: floors from the maximal stored floor number, rooms
resolved against the floor list, devices resolved against the room ids, then
actuator states resolved) — failing anywhere fails the whole load. -/
def load_smarthouse_deep (db : Database) : Option SmartHouse := do
  let no_floors ← maxFloor db.rooms
  let floors := (List.range no_floors).map (fun i => i + 1)
  let rooms ← buildRooms floors db.rooms
  let devs0 ← buildDevices (db.rooms.map RoomRow.id) db.devices
  let devs ← assignStates db.states devs0
  some { floors := floors, rooms := rooms, devices := devs }

/-- The state encoding of update_actuator_state: a numeric state is written
verbatim, True (running) is written as 1.0, anything else (off) as NULL. -/
def encodeState : ActState → Option ℚ
  | .numeric v => some v
  | .running => some 1
  | .off => none

/-- update_actuator_state: for an actuator, an SQL UPDATE sets the state
column of every states row of that device (matching zero rows is a silent
no-op); for a device without actuator capability nothing happens at all. -/
def update_actuator_state (db : Database) (dev : Device) : Database :=
  match dev.actState with
  | some s =>
      { db with states := db.states.map (fun r =>
          if r.device = dev.id then { r with state := encodeState s } else r) }
  | none => db

/-- The rows of the measurements table carrying the given device key. -/
def rowsFor (db : Database) (device : String) : List MeasRow :=
  db.measurements.filter (fun r => r.device = device)

/-- Newest-first comparison used by ORDER BY datetime(ts) DESC. -/
def newestFirstRel (a b : MeasRow) : Prop := b.ts.key ≤ a.ts.key

instance : DecidableRel newestFirstRel := fun a b => Nat.decLe b.ts.key a.ts.key

instance : IsTotal MeasRow newestFirstRel := ⟨fun a b => Nat.le_total b.ts.key a.ts.key⟩

instance : IsTrans MeasRow newestFirstRel := ⟨fun _ _ _ h1 h2 => Nat.le_trans h2 h1⟩

/-- Oldest-first comparison used by ORDER BY datetime(ts) ASC. -/
def oldestFirstRel (a b : MeasRow) : Prop := a.ts.key ≤ b.ts.key

instance : DecidableRel oldestFirstRel := fun a b => Nat.decLe a.ts.key b.ts.key

instance : IsTotal MeasRow oldestFirstRel := ⟨fun a b => Nat.le_total a.ts.key b.ts.key⟩

instance : IsTrans MeasRow oldestFirstRel := ⟨fun _ _ _ h1 h2 => Nat.le_trans h1 h2⟩

/-- ORDER BY datetime(ts) DESC (datetime normalisation preserves the order of
well-formed stamps, so this is the key order, newest first). -/
def sortNewestFirst (l : List MeasRow) : List MeasRow :=
  List.insertionSort newestFirstRel l

/-- ORDER BY datetime(ts) ASC. -/
def sortOldestFirst (l : List MeasRow) : List MeasRow :=
  List.insertionSort oldestFirstRel l

/-- SQL LIMIT n: a negative n means no limit in SQLite. -/
def sqlLimit (n : Int) (l : List α) : List α :=
  if n < 0 then l else l.take n.toNat

/-- Row mapping applied by the fetch loops of the source. -/
def rowToMeasurement (r : MeasRow) : Measurement :=
  { timestamp := r.ts, value := r.value, unit := r.unit }

/-- get_readings: the rows of the device, newest first; the Python truthiness
test on limit_n means the LIMIT branch is taken only for a present, non-zero
limit, and an absent or zero limit returns the whole history. -/
def get_readings (db : Database) (sensor : String) (limit_n : Option Int) :
    List Measurement :=
  let sorted := sortNewestFirst (rowsFor db sensor)
  let rows :=
    match limit_n with
    | some n => if n = 0 then sorted else sqlLimit n sorted
    | none => sorted
  rows.map rowToMeasurement

/-- fetchone on ORDER BY datetime(ts) ASC LIMIT 1: the first row carrying the
minimal timestamp key (insertion sort is stable, matching a deterministic
scan). -/
def oldestRow (l : List MeasRow) : Option MeasRow :=
  (sortOldestFirst l).head?

/-- delete_oldest_reading: fetch the oldest row of the device; when present,
DELETE every measurements row with that device and that timestamp and return
the fetched row; otherwise return none and leave the table unchanged. -/
def delete_oldest_reading (db : Database) (sensor : String) :
    Option Measurement × Database :=
  match oldestRow (rowsFor db sensor) with
  | some tup =>
      (some (rowToMeasurement tup),
       { db with measurements := db.measurements.filter (fun r =>
           ¬ (r.device = sensor ∧ r.ts = tup.ts)) })
  | none => (none, db)

/-- insert_measurement: appends the row; duplicates are accepted silently. -/
def insert_measurement (db : Database) (sensor : String) (m : Measurement) :
    Database :=
  { db with measurements :=
      db.measurements ++ [⟨sensor, m.timestamp, m.value, m.unit⟩] }

/-- get_latest_reading: ORDER BY ts DESC LIMIT 1 (plain string order, which
for ISO stamps agrees with the timestamp key order); none when no row came
back. -/
def get_latest_reading (db : Database) (sensorId : String) : Option Measurement :=
  (sortNewestFirst (rowsFor db sensorId)).head?.map rowToMeasurement

/-- Cursor accounting for get_latest_reading: the early return of None on an
empty result list happens before the close call, so the cursor it opened is
closed exactly when at least one row came back. -/
def get_latest_reading_closes_cursor (db : Database) (sensorId : String) : Bool :=
  !(rowsFor db sensorId).isEmpty

/-- Cursor accounting for calc_avg_temperatures_in_room: the method opens its
cursor whenever the room has a persisted id, and no close call appears on any
path; with no persisted id no cursor is opened, which is vacuously clean. -/
def calc_avg_closes_cursor (room : Room) : Bool :=
  room.db_id.isNone

/-- Cursor accounting for calc_hours_with_humidity_above: the method opens its
cursor whenever the room has a persisted id, and no close call appears on any
path; with no persisted id no cursor is opened, which is vacuously clean. -/
def calc_hours_closes_cursor (room : Room) : Bool :=
  room.db_id.isNone

/-- The exact unit literal of the temperature query filter: the source bytes
decode to the two characters 00C2 00B0 followed by C. -/
def tempUnitLiteral : String := "Â°C"

/-- The unit literal of the humidity query filter. -/
def humidityUnit : String := "%"

/-- The devices INNER JOIN measurements of the temperature query, with the
room condition of its WHERE clause: one joined row per pair of a measurement
row and a device row of that measurement in the given room. -/
def tempJoinRows (db : Database) (rid : Nat) : List MeasRow :=
  db.measurements.flatMap (fun m =>
    (db.devices.filter (fun d => d.id = m.device ∧ d.room = rid)).map (fun _ => m))

/-- The optional bound predicates of the temperature query: string comparisons
of ts against the given date with a 00:00:00 or a 23:59:59 time appended. -/
def inBounds (from_date until_date : Option Date) (t : Timestamp) : Bool :=
  (match from_date with
   | some d => decide (d.startOfDayKey ≤ t.key)
   | none => true) &&
  (match until_date with
   | some d => decide (t.key ≤ d.endOfDayKey)
   | none => true)

/-- The full WHERE clause of the temperature query applied to the joined
rows. -/
def tempRows (db : Database) (rid : Nat) (from_date until_date : Option Date) :
    List MeasRow :=
  (tempJoinRows db rid).filter
    (fun m => decide (m.unit = tempUnitLiteral) && inBounds from_date until_date m.ts)

/-- AVG(value) over a list of rows. -/
def avgVals (l : List MeasRow) : ℚ := (l.map MeasRow.value).sum / (l.length : ℚ)

/-- Ascending comparison of dates by key, the group emission order. -/
def dateAscRel (a b : Date) : Prop := a.key ≤ b.key

instance : DecidableRel dateAscRel := fun a b => Nat.decLe a.key b.key

instance : IsTotal Date dateAscRel := ⟨fun a b => Nat.le_total a.key b.key⟩

instance : IsTrans Date dateAscRel := ⟨fun _ _ _ h1 h2 => Nat.le_trans h1 h2⟩

/-- GROUP BY on the date component of ts: the distinct dates, emitted in
ascending order. -/
def groupDates (l : List MeasRow) : List Date :=
  List.insertionSort dateAscRel ((l.map (fun m => m.ts.date)).dedup)

/-- The rows of one date group. -/
def dateBucket (l : List MeasRow) (k : Date) : List MeasRow :=
  l.filter (fun m => m.ts.date = k)

/-- calc_avg_temperatures_in_room: the empty mapping when the room has no
persisted id, else the average value per date group of the filtered joined
rows. -/
def calc_avg_temperatures_in_room (db : Database) (room : Room)
    (from_date until_date : Option Date) : List (Date × ℚ) :=
  match room.db_id with
  | none => []
  | some rid =>
      let rows := tempRows db rid from_date until_date
      (groupDates rows).map (fun k => (k, avgVals (dateBucket rows k)))

/-- The single-date bucket used by the claim statement about the temperature
query: the measurement rows of some device located in the given room with the
temperature unit literal, inside the bounds, on the given date. -/
def tempBucketSpec (db : Database) (rid : Nat)
    (from_date until_date : Option Date) (k : Date) : List MeasRow :=
  db.measurements.filter (fun m =>
    decide (m.ts.date = k) &&
      ((decide (m.unit = tempUnitLiteral) && inBounds from_date until_date m.ts) &&
        decide (∃ d ∈ db.devices, d.id = m.device ∧ d.room = rid)))

/-- The measurements INNER JOIN devices of the humidity sub query with its
WHERE clause: one row per pair of a measurement and a device row of that
measurement located in the room with the given id, on the given date. There is
no unit filter in the sub query. -/
def dayRows (db : Database) (rid : Nat) (date : Date) : List MeasRow :=
  (db.measurements.flatMap (fun m =>
    (db.devices.filter (fun d => d.id = m.device ∧ d.room = rid)).map (fun _ => m))).filter
    (fun m => m.ts.date = date)

/-- SQL AVG, which is NULL over an empty set of rows. -/
def sqlAvgOpt (l : List MeasRow) : Option ℚ :=
  match l with
  | [] => none
  | _ => some (avgVals l)

/-- The comparison of a value against the sub query threshold: a NULL
threshold lets no row through. -/
def aboveThr (thr : Option ℚ) (v : ℚ) : Bool :=
  match thr with
  | none => false
  | some t => decide (t < v)

/-- The triple join of the humidity query (measurements, devices, rooms) with
its WHERE clause: rows of the given room id (which must also exist as a rooms
row to satisfy the join), humidity unit, given date, value above the
threshold. -/
def humidityRows (db : Database) (rid : Nat) (date : Date) (thr : Option ℚ) :
    List MeasRow :=
  (db.measurements.flatMap (fun m =>
    (db.devices.filter (fun d => m.device = d.id)).flatMap (fun d =>
      (db.rooms.filter (fun r => r.id = d.room ∧ r.id = rid)).map (fun _ => m)))).filter
    (fun m => decide (m.unit = humidityUnit) && (decide (m.ts.date = date) &&
      aboveThr thr m.value))

/-- GROUP BY on the hour component of ts: the distinct hours, emitted in
ascending order. -/
def groupHours (l : List MeasRow) : List Nat :=
  List.insertionSort (fun a b => a ≤ b) ((l.map (fun m => m.ts.hour)).dedup)

/-- The rows of one hour group. -/
def hourBucket (l : List MeasRow) (h : Nat) : List MeasRow :=
  l.filter (fun m => m.ts.hour = h)

/-- calc_hours_with_humidity_above as the source writes it: the threshold of
the sub query always reads the room with id 4, which is hard coded in the SQL
text, while the outer query uses the id of the given room; the HAVING clause
keeps the hours with more than three qualifying rows. -/
def calc_hours_with_humidity_above (db : Database) (room : Room) (date : Date) :
    List Nat :=
  match room.db_id with
  | none => []
  | some rid =>
      let thr := sqlAvgOpt (dayRows db 4 date)
      let rows := humidityRows db rid date thr
      (groupHours rows).filter (fun h => 3 < (hourBucket rows h).length)

/-- Modelled from the spec: the intended humidity query of section 4.5, whose
threshold is the day-wide average humidity of the given room itself on that
date. -/
def calc_hours_with_humidity_above_spec (db : Database) (room : Room)
    (date : Date) : List Nat :=
  match room.db_id with
  | none => []
  | some rid =>
      let thr := sqlAvgOpt ((dayRows db rid date).filter
        (fun m => m.unit = humidityUnit))
      let rows := humidityRows db rid date thr
      (groupHours rows).filter (fun h => 3 < (hourBucket rows h).length)

/- Concrete sample data used by witnesses and counterexamples. -/

def d20240101 : Date := ⟨2024, 1, 1⟩

def d20240102 : Date := ⟨2024, 1, 2⟩

/-- A timestamp on the given date at the given hour and minute. -/
def mkTs (date : Date) (h m : Nat) : Timestamp := ⟨date, h, m, 0⟩

/-- An empty database. -/
def dbEmpty : Database := ⟨[], [], [], []⟩

/-- A database with one room (id 1), one humidity sensor in it, and five
humidity readings on the same date in hour 10: values 60, 60, 60, 60, 10,
whose day-wide average is 50, with four readings above that average. No
device is located in a room with id 4. -/
def db1 : Database :=
  { rooms := [⟨1, 1, 20, "bath"⟩],
    devices := [⟨"h1", 1, "Humidity Sensor", "sensor", "X", "Y"⟩],
    states := [],
    measurements :=
      [⟨"h1", mkTs d20240101 10 0, 60, "%"⟩,
       ⟨"h1", mkTs d20240101 10 1, 60, "%"⟩,
       ⟨"h1", mkTs d20240101 10 2, 60, "%"⟩,
       ⟨"h1", mkTs d20240101 10 3, 60, "%"⟩,
       ⟨"h1", mkTs d20240101 10 4, 10, "%"⟩] }

/-- The in-memory room with persisted id 1 of db1. -/
def room1 : Room := ⟨some 1, 1, 20, "bath"⟩

/-- A database with one room and one actuator device that has no row at all
in the states table. -/
def db3 : Database :=
  { rooms := [⟨1, 1, 10, "r"⟩],
    devices := [⟨"a1", 1, "Light", "actuator", "s", "p"⟩],
    states := [],
    measurements := [] }

/-- A database with one room and one actuator device whose states row holds
the value 2.0. -/
def dbW : Database :=
  { rooms := [⟨1, 1, 10, "r"⟩],
    devices := [⟨"a1", 1, "Light", "actuator", "s", "p"⟩],
    states := [⟨"a1", some 2⟩],
    measurements := [] }

/-- The in-memory actuator of dbW, currently on with setpoint 5. -/
def actW : Device := ⟨"a1", "p", "s", "Light", 1, .actuator (.numeric 5)⟩

/-- The house that the fresh load yields after actW is written to dbW. -/
def houseW : SmartHouse :=
  { floors := [1],
    rooms := [⟨some 1, 1, 10, "r"⟩],
    devices := [⟨"a1", "p", "s", "Light", 1, .actuator (.numeric 5)⟩] }

/-- A database with one room and one actuator device whose states row holds
NULL. -/
def dbN : Database :=
  { rooms := [⟨1, 1, 10, "r"⟩],
    devices := [⟨"a1", 1, "Light", "actuator", "s", "p"⟩],
    states := [⟨"a1", none⟩],
    measurements := [] }

/-- The house loaded from dbN: the actuator decoded to off. -/
def houseN : SmartHouse :=
  { floors := [1],
    rooms := [⟨some 1, 1, 10, "r"⟩],
    devices := [⟨"a1", "p", "s", "Light", 1, .actuator .off⟩] }

/-- A database whose measurements table holds three rows of one device with
pairwise distinct, increasing timestamps. -/
def db4 : Database :=
  { rooms := [], devices := [], states := [],
    measurements :=
      [⟨"d", mkTs d20240101 1 0, 1, "u"⟩,
       ⟨"d", mkTs d20240101 2 0, 2, "u"⟩,
       ⟨"d", mkTs d20240101 3 0, 3, "u"⟩] }

/-- The database db4 after its oldest reading of device d was deleted. -/
def db4b : Database := (delete_oldest_reading db4 "d").2

/-- A database whose measurements table holds a single row of device d. -/
def db5 : Database :=
  { rooms := [], devices := [], states := [],
    measurements := [⟨"d", mkTs d20240101 1 0, 1, "u"⟩] }

/-- A database with one room, one temperature sensor in it and three
temperature readings: 20 and 22 on the first date, 18 on the second. -/
def db6 : Database :=
  { rooms := [⟨1, 1, 10, "lr"⟩],
    devices := [⟨"t1", 1, "Temperature Sensor", "sensor", "X", "Y"⟩],
    states := [],
    measurements :=
      [⟨"t1", mkTs d20240101 10 0, 20, tempUnitLiteral⟩,
       ⟨"t1", mkTs d20240101 11 0, 22, tempUnitLiteral⟩,
       ⟨"t1", mkTs d20240102 10 0, 18, tempUnitLiteral⟩] }

/-- The in-memory room with persisted id 1 of db6. -/
def room6 : Room := ⟨some 1, 1, 10, "lr"⟩

/-- A database with one room and one device row whose category is neither
sensor nor actuator. -/
def db8 : Database :=
  { rooms := [⟨1, 1, 10, "r"⟩],
    devices := [⟨"x", 1, "Gizmo", "fancy", "s", "p"⟩],
    states := [],
    measurements := [] }

/-- A database with one room (id 1) and one device row referencing the
nonexistent room id 7. -/
def db8b : Database :=
  { rooms := [⟨1, 1, 10, "r"⟩],
    devices := [⟨"y", 7, "Gizmo", "sensor", "s", "p"⟩],
    states := [],
    measurements := [] }

/-- The device row of db8b. -/
def drow8b : DeviceRow := ⟨"y", 7, "Gizmo", "sensor", "s", "p"⟩

/-- The in-memory actuator of db3, currently running. -/
def act9 : Device := ⟨"a1", "p", "s", "Light", 1, .actuator .running⟩

/-- A database whose measurements table holds two rows of device d sharing
the minimal timestamp, and one row with a later timestamp. -/
def db10 : Database :=
  { rooms := [], devices := [], states := [],
    measurements :=
      [⟨"d", mkTs d20240101 1 0, 5, "%"⟩,
       ⟨"d", mkTs d20240101 1 0, 7, "%"⟩,
       ⟨"d", mkTs d20240101 3 0, 9, "%"⟩] }

/- Theorems. -/

/- Helper lemmas about the load machinery. -/

theorem setState_id (d : Device) (s : ActState) : (d.setState s).id = d.id := by
  cases d with
  | mk id product supplier kind room v => cases v <;> rfl

theorem setState_actState (d : Device) (s : ActState) (h : d.isActuator = true) :
    (d.setState s).actState = some s := by
  cases d with
  | mk id product supplier kind room v =>
    cases v <;> simp [Device.setState, Device.actState, Device.isActuator] at h ⊢

/-- Every actuator of a successfully resolved device list got its state from
the first states row of its id, decoded. -/
theorem assignStates_mem (states : List StateRow) :
    ∀ (devs devs' : List Device), assignStates states devs = some devs' →
      ∀ d ∈ devs', d.isActuator = true →
        ∃ v, findStateRow states d.id = some v ∧ d.actState = some (decodeState v) := by
  intro devs
  induction devs with
  | nil =>
    intro devs' h
    simp only [assignStates, Option.some.injEq] at h
    subst h
    intro d hd
    simp at hd
  | cons d0 ds ih =>
    intro devs' h
    simp only [assignStates] at h
    by_cases hact : d0.isActuator = true
    · rw [if_pos hact] at h
      cases hfind : findStateRow states d0.id with
      | none => rw [hfind] at h; simp at h
      | some v =>
        rw [hfind] at h
        cases hrec : assignStates states ds with
        | none => rw [hrec] at h; simp at h
        | some rest =>
          rw [hrec] at h
          simp only [Option.some.injEq] at h
          subst h
          intro d hd hdact
          rcases List.mem_cons.mp hd with hEq | hMem
          · subst hEq
            refine ⟨v, ?_, setState_actState d0 (decodeState v) hact⟩
            rw [setState_id]
            exact hfind
          · exact ih rest hrec d hMem hdact
    · rw [if_neg hact] at h
      cases hrec : assignStates states ds with
      | none => rw [hrec] at h; simp at h
      | some rest =>
        rw [hrec] at h
        simp only [Option.some.injEq] at h
        subst h
        intro d hd hdact
        rcases List.mem_cons.mp hd with hEq | hMem
        · subst hEq; exact absurd hdact hact
        · exact ih rest hrec d hMem hdact

/-- An actuator without a states row makes the resolution loop fail. -/
theorem assignStates_none (states : List StateRow) :
    ∀ (devs : List Device) (d : Device), d ∈ devs → d.isActuator = true →
      findStateRow states d.id = none → assignStates states devs = none := by
  intro devs
  induction devs with
  | nil => intro d hd; simp at hd
  | cons d0 ds ih =>
    intro d hd hdact hfind
    simp only [assignStates]
    rcases List.mem_cons.mp hd with hEq | hMem
    · subst hEq
      rw [if_pos hdact, hfind]
    · by_cases hact : d0.isActuator = true
      · rw [if_pos hact]
        cases hfind0 : findStateRow states d0.id with
        | none => rfl
        | some v => rw [ih d hMem hdact hfind]
      · rw [if_neg hact, ih d hMem hdact hfind]

/-- After the UPDATE of update_actuator_state, the first states row of the
updated device holds exactly the encoded value. -/
theorem findStateRow_update (aid : String) (e : Option ℚ) (v : Option ℚ) :
    ∀ states : List StateRow,
      findStateRow (states.map (fun r =>
        if r.device = aid then { r with state := e } else r)) aid = some v → v = e := by
  intro states
  induction states with
  | nil => intro h; simp [findStateRow] at h
  | cons r rs ih =>
    intro h
    by_cases hdev : r.device = aid
    · rw [List.map_cons, if_pos hdev] at h
      unfold findStateRow at h
      rw [List.find?_cons_of_pos _ (by simpa using hdev)] at h
      simp only [Option.map_some', Option.some.injEq] at h
      exact h.symm
    · rw [List.map_cons, if_neg hdev] at h
      unfold findStateRow at h
      rw [List.find?_cons_of_neg _ (by simpa using hdev)] at h
      exact ih h

/-- A successful deep load determines its devices through buildDevices and
assignStates. -/
theorem load_devices_elim (db : Database) (house : SmartHouse)
    (h : load_smarthouse_deep db = some house) :
    ∃ devs0, buildDevices (db.rooms.map RoomRow.id) db.devices = some devs0 ∧
      assignStates db.states devs0 = some house.devices := by
  simp only [load_smarthouse_deep, Option.bind_eq_bind, Option.bind_eq_some] at h
  obtain ⟨nf, hnf, rooms, hrooms, devs0, hdevs0, devs, hdevs, hfin⟩ := h
  refine ⟨devs0, hdevs0, ?_⟩
  simp only [Option.some.injEq] at hfin
  rw [← hfin]
  exact hdevs

/-- A device row referencing an id carried by no room row makes buildDevices
fail. -/
theorem buildDevices_none (roomIds : List Nat) :
    ∀ (rows : List DeviceRow) (drow : DeviceRow), drow ∈ rows →
      drow.room ∉ roomIds → buildDevices roomIds rows = none := by
  intro rows
  induction rows with
  | nil => intro drow h; simp at h
  | cons r rs ih =>
    intro drow hmem hnotin
    simp only [buildDevices]
    by_cases hr : r.room ∈ roomIds
    · rw [if_pos hr]
      rcases List.mem_cons.mp hmem with hEq | hMem
      · subst hEq; exact absurd hr hnotin
      · rw [ih drow hMem hnotin]
    · rw [if_neg hr]

/-- A device row of an unknown category in a known room is skipped entirely
by buildDevices. -/
theorem buildDevices_skip (roomIds : List Nat) (drow : DeviceRow)
    (hin : drow.room ∈ roomIds) (hs : drow.category ≠ "sensor")
    (ha : drow.category ≠ "actuator") :
    ∀ pre post : List DeviceRow,
      buildDevices roomIds (pre ++ drow :: post) = buildDevices roomIds (pre ++ post) := by
  intro pre
  induction pre with
  | nil =>
    intro post
    simp only [List.nil_append, buildDevices]
    rw [if_pos hin]
    cases h : buildDevices roomIds post with
    | none => rfl
    | some rest =>
      dsimp only
      rw [if_neg hs, if_neg ha]
  | cons r rs ih =>
    intro post
    simp only [List.cons_append, buildDevices, List.append_eq]
    rw [ih post]

/-- Claim C2: writing an actuator state with update_actuator_state and then doing a
fresh load_smarthouse_deep yields an in-memory actuator of that id whose
state is the state that was written: off stays off, running stays running, a
numeric setpoint stays that setpoint, except that the value 1.0 decodes to
running instead of the numeric state 1.0. -/
theorem C2_actuator_state_roundtrip (db : Database) (act : Device) (s : ActState)
    (house : SmartHouse) (hact : act.actState = some s)
    (hload : load_smarthouse_deep (update_actuator_state db act) = some house) :
    ∀ d ∈ house.devices, d.id = act.id → d.isActuator = true →
      d.actState = some (match s with
        | .off => ActState.off
        | .running => ActState.running
        | .numeric v => if v = 1 then ActState.running else ActState.numeric v) := by
  intro d hd hid hdact
  obtain ⟨devs0, hbuild, hassign⟩ := load_devices_elim _ _ hload
  have hstates : (update_actuator_state db act).states
      = db.states.map (fun r =>
          if r.device = act.id then { r with state := encodeState s } else r) := by
    simp [update_actuator_state, hact]
  rw [hstates] at hassign
  obtain ⟨v, hfind, hstate⟩ := assignStates_mem _ _ _ hassign d hd hdact
  rw [hid] at hfind
  have hv := findStateRow_update act.id (encodeState s) v _ hfind
  subst hv
  rw [hstate]
  cases s with
  | off => rfl
  | running => simp [encodeState, decodeState]
  | numeric x => by_cases hx : x = 1 <;> simp [encodeState, decodeState, hx]

/-- Witness for claim C2: a database with one actuator whose states row holds 2.0; the
in-memory actuator is on with setpoint 5; after the write, the fresh load
yields the actuator with state 5. -/
theorem C2_actuator_state_roundtrip_witness :
    actW.actState = some (ActState.numeric 5) ∧
    load_smarthouse_deep (update_actuator_state dbW actW) = some houseW ∧
    ∀ d ∈ houseW.devices, d.id = actW.id → d.isActuator = true →
      d.actState = some (ActState.numeric 5) := by
  refine ⟨rfl, by decide, ?_⟩
  intro d hd hid hdact
  have h := C2_actuator_state_roundtrip dbW actW (ActState.numeric 5) houseW rfl
    (by decide) d hd hid hdact
  rw [h]
  decide

/-- Counterexample to claim C3: the claim says a missing states row does not abort the
load; on db3, whose single actuator device has no row in the states table,
load_smarthouse_deep fails (the source subscripts the None that fetchone
returned). -/
theorem C3_missing_row_aborts_load : load_smarthouse_deep db3 = none := by
  decide

/-- Claim C3 as amended: during load_smarthouse_deep, every actuator capability device
of a successful load got its state from its first states row: a stored NULL
decodes to off, a stored value exactly 1.0 to running, any other value to on
with that setpoint; but a device with actuator capability and no states row
at all aborts the whole load, which returns nothing. -/
theorem C3_state_decoding_amended (db : Database) :
    (∀ house, load_smarthouse_deep db = some house →
       ∀ d ∈ house.devices, d.isActuator = true →
         ∃ v, findStateRow db.states d.id = some v ∧
           d.actState = some (match v with
             | none => ActState.off
             | some x => if x = 1 then ActState.running else ActState.numeric x)) ∧
    (∀ devs0 d, buildDevices (db.rooms.map RoomRow.id) db.devices = some devs0 →
       d ∈ devs0 → d.isActuator = true → findStateRow db.states d.id = none →
       load_smarthouse_deep db = none) := by
  constructor
  · intro house hload d hd hdact
    obtain ⟨devs0, hbuild, hassign⟩ := load_devices_elim _ _ hload
    obtain ⟨v, hfind, hstate⟩ := assignStates_mem _ _ _ hassign d hd hdact
    refine ⟨v, hfind, ?_⟩
    rw [hstate]
    cases v with
    | none => rfl
    | some x => rfl
  · intro devs0 d hbuild hd hdact hfind
    have hassign := assignStates_none db.states devs0 d hd hdact hfind
    cases hnf : maxFloor db.rooms with
    | none => simp [load_smarthouse_deep, hnf]
    | some nf =>
      cases hrooms : buildRooms ((List.range nf).map (fun i => i + 1)) db.rooms with
      | none => simp [load_smarthouse_deep, hnf, hrooms]
      | some rooms => simp [load_smarthouse_deep, hnf, hrooms, hbuild, hassign]

/-- Witness for claim C3: on dbN, whose actuator has a states row holding NULL, the
load succeeds and decodes the state to off; and on db3, whose actuator has
no states row, the load aborts. -/
theorem C3_state_decoding_amended_witness :
    (∃ v, findStateRow dbN.states
        (⟨"a1", "p", "s", "Light", 1, .actuator .off⟩ : Device).id = some v ∧
      (⟨"a1", "p", "s", "Light", 1, .actuator .off⟩ : Device).actState
        = some (match v with
          | none => ActState.off
          | some x => if x = 1 then ActState.running else ActState.numeric x)) ∧
    load_smarthouse_deep db3 = none := by
  constructor
  · exact (C3_state_decoding_amended dbN).1 houseN (by decide) _ (by decide) rfl
  · exact (C3_state_decoding_amended db3).2
      [⟨"a1", "p", "s", "Light", 1, .actuator .off⟩]
      ⟨"a1", "p", "s", "Light", 1, .actuator .off⟩ (by decide) (by decide) rfl rfl

/-- Claim C9: for an actuator whose id matches no row of the states table, the SQL
UPDATE of update_actuator_state matches zero rows: the database is returned
entirely unchanged, no row is inserted and no error is raised, so a
subsequent load_smarthouse_deep sees exactly what it would have seen without
the write. -/
theorem C9_update_without_row_is_lost (db : Database) (act : Device)
    (s : ActState) (hact : act.actState = some s)
    (hnorow : ∀ r ∈ db.states, r.device ≠ act.id) :
    update_actuator_state db act = db ∧
    load_smarthouse_deep (update_actuator_state db act) = load_smarthouse_deep db := by
  have hmap : ∀ l : List StateRow, (∀ r ∈ l, r.device ≠ act.id) →
      l.map (fun r =>
        if r.device = act.id then { r with state := encodeState s } else r) = l := by
    intro l hl
    induction l with
    | nil => rfl
    | cons r rs ih =>
      simp only [List.map_cons]
      rw [if_neg (hl r (List.mem_cons_self r rs)),
        ih (fun x hx => hl x (List.mem_cons_of_mem r hx))]
  have hupd : update_actuator_state db act = db := by
    simp only [update_actuator_state, hact]
    rw [hmap db.states hnorow]
  exact ⟨hupd, by rw [hupd]⟩

/-- Witness for claim C9: db3 has an empty states table, so writing the running state
of its actuator leaves the database bit-for-bit unchanged and a fresh load
sees nothing of it. -/
theorem C9_update_without_row_is_lost_witness :
    update_actuator_state db3 act9 = db3 ∧
    load_smarthouse_deep (update_actuator_state db3 act9) = load_smarthouse_deep db3 :=
  C9_update_without_row_is_lost db3 act9 ActState.running rfl (by decide)

/-- Claim C8 as amended: a device row referencing a room id carried by no room row
makes load_smarthouse_deep fail with no partial graph; but a device row
whose category is neither sensor nor actuator, in an existing room, is
silently skipped: the load behaves exactly as if that row were absent. -/
theorem C8_load_failure_amended :
    (∀ db : Database, ∀ drow ∈ db.devices, (∀ rr ∈ db.rooms, rr.id ≠ drow.room) →
       load_smarthouse_deep db = none) ∧
    (∀ (db : Database) (pre post : List DeviceRow) (drow : DeviceRow),
       db.devices = pre ++ drow :: post → drow.room ∈ db.rooms.map RoomRow.id →
       drow.category ≠ "sensor" → drow.category ≠ "actuator" →
       load_smarthouse_deep db
         = load_smarthouse_deep { db with devices := pre ++ post }) := by
  constructor
  · intro db drow hmem hnone
    have hnotin : drow.room ∉ db.rooms.map RoomRow.id := by
      simp only [List.mem_map]
      rintro ⟨rr, hrr, hid⟩
      exact hnone rr hrr hid
    have hbuild := buildDevices_none (db.rooms.map RoomRow.id) db.devices drow hmem hnotin
    cases hnf : maxFloor db.rooms with
    | none => simp [load_smarthouse_deep, hnf]
    | some nf =>
      cases hrooms : buildRooms ((List.range nf).map (fun i => i + 1)) db.rooms with
      | none => simp [load_smarthouse_deep, hnf, hrooms]
      | some rooms => simp [load_smarthouse_deep, hnf, hrooms, hbuild]
  · intro db pre post drow hdevs hin hs ha
    have hskip := buildDevices_skip (db.rooms.map RoomRow.id) drow hin hs ha pre post
    simp only [load_smarthouse_deep]
    rw [hdevs, hskip]

/-- Witness for claim C8: db8b has a sensor row referencing the nonexistent room 7 and
its load fails; db8 has a device row of the unknown category fancy in the
existing room 1 and its load equals the load of the same database without
that row. -/
theorem C8_load_failure_amended_witness :
    load_smarthouse_deep db8b = none ∧
    load_smarthouse_deep db8 = load_smarthouse_deep { db8 with devices := [] } := by
  constructor
  · exact C8_load_failure_amended.1 db8b drow8b (by decide) (by decide)
  · exact C8_load_failure_amended.2 db8 [] [] ⟨"x", 1, "Gizmo", "fancy", "s", "p"⟩
      rfl (by decide) (by decide) (by decide)

/-- Claim C1: the claim says the hours query compares each humidity reading of the
room against the day-wide average humidity of that same room; the source
instead hard-codes the room id 4 into the sub query computing the threshold.
On db1, whose room 1 has four readings above the average of room 1 on the
date while no device is in a room with id 4 (so the threshold of the source
is NULL and no reading qualifies), the source query yields the empty list
while the intended query of the spec yields hour 10. -/
theorem C1_hardcoded_room_divergence :
    calc_hours_with_humidity_above db1 room1 d20240101 = [] ∧
    calc_hours_with_humidity_above_spec db1 room1 d20240101 = [10] := by
  constructor
  · decide
  · have hthr : sqlAvgOpt ((dayRows db1 1 d20240101).filter
        (fun m => m.unit = humidityUnit)) = some 50 := by
      norm_num [sqlAvgOpt, avgVals, dayRows, db1, d20240101, mkTs, humidityUnit]
    simp only [calc_hours_with_humidity_above_spec, room1]
    rw [hthr]
    decide

/-- Counterexample to claim C5: the claim says a present limit of 0 returns at most 0
rows; on a database with one stored row of the device, get_readings with
limit 0 returns that row (the Python truthiness test treats 0 as an absent
limit), hence one row rather than none. -/
theorem C5_limit_zero_counterexample :
    (get_readings db5 "d" (some 0)).length = 1 ∧
    get_readings db5 "d" (some 0) = get_readings db5 "d" none := by
  constructor <;> decide

/-- Claim C7: the claim says every repository operation closes the cursor it opened
on every exit path. In the source, calc_avg_temperatures_in_room and
calc_hours_with_humidity_above never call close on the cursor they open for
a room with a persisted id, and get_latest_reading returns None on an empty
result list before reaching its close call, as witnessed on a database with
no measurements. -/
theorem C7_cursor_leaks :
    (∀ rid fl ar nm, calc_avg_closes_cursor ⟨some rid, fl, ar, nm⟩ = false) ∧
    (∀ rid fl ar nm, calc_hours_closes_cursor ⟨some rid, fl, ar, nm⟩ = false) ∧
    get_latest_reading_closes_cursor dbEmpty "s1" = false := by
  exact ⟨fun _ _ _ _ => rfl, fun _ _ _ _ => rfl, rfl⟩

/-- Counterexample to claim C8: the claim says a device row whose category is neither
sensor nor actuator makes the load fail with no partial graph; on db8, which
contains exactly one such device row, the load succeeds and returns a house
graph in which the device is silently missing. -/
theorem C8_unknown_category_counterexample :
    load_smarthouse_deep db8 = some ⟨[1], [⟨some 1, 1, 10, "r"⟩], []⟩ := by
  decide

/-- The fetched oldest row is a row of the list and carries a minimal
timestamp key. -/
theorem oldestRow_spec (l : List MeasRow) (tup : MeasRow) (h : oldestRow l = some tup) :
    tup ∈ l ∧ ∀ r ∈ l, tup.ts.key ≤ r.ts.key := by
  unfold oldestRow sortOldestFirst at h
  cases hs : List.insertionSort oldestFirstRel l with
  | nil => rw [hs] at h; simp at h
  | cons a t =>
    rw [hs] at h
    simp only [List.head?_cons, Option.some.injEq] at h
    subst h
    have hsorted := List.sorted_insertionSort oldestFirstRel l
    have hperm := List.perm_insertionSort oldestFirstRel l
    rw [hs] at hsorted hperm
    constructor
    · exact hperm.mem_iff.mp (List.mem_cons_self a t)
    · intro r hr
      rcases List.mem_cons.mp (hperm.mem_iff.mpr hr) with hEq | hMem
      · rw [hEq]
      · exact List.rel_of_sorted_cons hsorted r hMem

/-- A nonempty row list has an oldest row. -/
theorem oldestRow_isSome (l : List MeasRow) (h : l ≠ []) :
    ∃ tup, oldestRow l = some tup := by
  unfold oldestRow sortOldestFirst
  cases hs : List.insertionSort oldestFirstRel l with
  | nil =>
    have hperm := List.perm_insertionSort oldestFirstRel l
    rw [hs] at hperm
    exact absurd hperm.symm.eq_nil h
  | cons a t => exact ⟨a, rfl⟩

/-- Claim C4: when the stored measurements of a device have pairwise distinct
timestamps, delete_oldest_reading on an empty series returns none and leaves
the database unchanged, and on a nonempty series it removes exactly one row,
the one with the minimal timestamp, and returns that row. Applying this to a
series t1 below t2 below t3, the first call removes the t1 row and the
second call, on the resulting database, removes the t2 row. -/
theorem C4_delete_oldest (db : Database) (dev : String)
    (hdist : (rowsFor db dev).Pairwise (fun a b => a.ts ≠ b.ts)) :
    (rowsFor db dev = [] → delete_oldest_reading db dev = (none, db)) ∧
    (rowsFor db dev ≠ [] →
      ∃ m l1 l2, db.measurements = l1 ++ m :: l2 ∧ m.device = dev ∧
        (∀ r ∈ rowsFor db dev, m.ts.key ≤ r.ts.key) ∧
        delete_oldest_reading db dev
          = (some (rowToMeasurement m), { db with measurements := l1 ++ l2 })) := by
  constructor
  · intro hempty
    simp [delete_oldest_reading, oldestRow, sortOldestFirst, hempty]
  · intro hne
    obtain ⟨tup, htup⟩ := oldestRow_isSome _ hne
    obtain ⟨htmem, hmin⟩ := oldestRow_spec _ _ htup
    have htdev : tup.device = dev := by
      have := (List.mem_filter.mp htmem).2
      simpa using this
    have htm : tup ∈ db.measurements := (List.mem_filter.mp htmem).1
    obtain ⟨l1, l2, hsplit⟩ := List.append_of_mem htm
    have hrowsplit : rowsFor db dev
        = (l1.filter (fun r => r.device = dev)) ++ tup ::
          (l2.filter (fun r => r.device = dev)) := by
      unfold rowsFor
      rw [hsplit, List.filter_append, List.filter_cons]
      simp [htdev]
    rw [hrowsplit] at hdist
    rw [List.pairwise_append] at hdist
    obtain ⟨hp1, hp2, hp12⟩ := hdist
    rw [List.pairwise_cons] at hp2
    obtain ⟨htl2, _⟩ := hp2
    refine ⟨tup, l1, l2, hsplit, htdev, hmin, ?_⟩
    simp only [delete_oldest_reading, htup]
    have hfilter : db.measurements.filter
        (fun r => ¬ (r.device = dev ∧ r.ts = tup.ts)) = l1 ++ l2 := by
      rw [hsplit, List.filter_append, List.filter_cons]
      have hl1 : l1.filter (fun r => ¬ (r.device = dev ∧ r.ts = tup.ts)) = l1 := by
        rw [List.filter_eq_self]
        intro r hr
        simp only [decide_eq_true_eq]
        rintro ⟨hrdev, hrts⟩
        have hrin : r ∈ l1.filter (fun r => r.device = dev) :=
          List.mem_filter.mpr ⟨hr, by simpa using hrdev⟩
        exact hp12 r hrin tup (List.mem_cons_self tup _) hrts
      have hl2 : l2.filter (fun r => ¬ (r.device = dev ∧ r.ts = tup.ts)) = l2 := by
        rw [List.filter_eq_self]
        intro r hr
        simp only [decide_eq_true_eq]
        rintro ⟨hrdev, hrts⟩
        have hrin : r ∈ l2.filter (fun r => r.device = dev) :=
          List.mem_filter.mpr ⟨hr, by simpa using hrdev⟩
        exact htl2 r hrin hrts.symm
      rw [hl1, hl2]
      simp [htdev]
    rw [hfilter]

/-- Witness for claim C4: on db4, whose device d has three rows with increasing
distinct timestamps, the first delete removes the earliest row and the
second delete, on the resulting database db4b, removes the next one; and on
the empty database the delete returns none and changes nothing. -/
theorem C4_delete_oldest_witness :
    (∃ m l1 l2, db4.measurements = l1 ++ m :: l2 ∧ m.device = "d" ∧
       (∀ r ∈ rowsFor db4 "d", m.ts.key ≤ r.ts.key) ∧
       delete_oldest_reading db4 "d"
         = (some (rowToMeasurement m), { db4 with measurements := l1 ++ l2 })) ∧
    (∃ m l1 l2, db4b.measurements = l1 ++ m :: l2 ∧ m.device = "d" ∧
       (∀ r ∈ rowsFor db4b "d", m.ts.key ≤ r.ts.key) ∧
       delete_oldest_reading db4b "d"
         = (some (rowToMeasurement m), { db4b with measurements := l1 ++ l2 })) ∧
    delete_oldest_reading dbEmpty "d" = (none, dbEmpty) := by
  refine ⟨?_, ?_, ?_⟩
  · exact (C4_delete_oldest db4 "d" (by decide)).2 (by decide)
  · exact (C4_delete_oldest db4b "d" (by decide)).2 (by decide)
  · exact (C4_delete_oldest dbEmpty "d" (by decide)).1 (by decide)

/-- Claim C5 as amended: with no limit, get_readings returns the whole measurement
history of the device, newest first (a permutation of the stored rows of
that device, sorted by decreasing timestamp key); a present positive limit n
returns exactly the first n entries of that full history; but a present
limit of 0 is treated like an absent limit and returns the full history,
not at most 0 rows. -/
theorem C5_get_readings_amended (db : Database) (dev : String) :
    List.Sorted (fun a b : Measurement => b.timestamp.key ≤ a.timestamp.key)
      (get_readings db dev none) ∧
    List.Perm (get_readings db dev none) ((rowsFor db dev).map rowToMeasurement) ∧
    (∀ n : Int, 0 < n →
       get_readings db dev (some n) = (get_readings db dev none).take n.toNat) ∧
    get_readings db dev (some 0) = get_readings db dev none := by
  refine ⟨?_, ?_, ?_, rfl⟩
  · show List.Sorted _ ((sortNewestFirst (rowsFor db dev)).map rowToMeasurement)
    exact List.Pairwise.map rowToMeasurement (fun a b h => h)
      (List.sorted_insertionSort newestFirstRel (rowsFor db dev))
  · show List.Perm ((sortNewestFirst (rowsFor db dev)).map rowToMeasurement)
      ((rowsFor db dev).map rowToMeasurement)
    exact (List.perm_insertionSort newestFirstRel (rowsFor db dev)).map rowToMeasurement
  · intro n hn
    have hne : ¬ n = 0 := by omega
    have hneg : ¬ n < 0 := by omega
    simp only [get_readings, sqlLimit, if_neg hne, if_neg hneg]
    rw [List.map_take]

/-- Witness for claim C5: on db5, a present limit of 1 returns the first entry of the
full history, and a present limit of 0 returns the full history itself. -/
theorem C5_get_readings_amended_witness :
    get_readings db5 "d" (some 1) = (get_readings db5 "d" none).take (Int.toNat 1) ∧
    get_readings db5 "d" (some 0) = get_readings db5 "d" none :=
  ⟨(C5_get_readings_amended db5 "d").2.2.1 1 (by decide),
   (C5_get_readings_amended db5 "d").2.2.2⟩

/-- On a device table with no duplicate ids, at most one device row matches a
given measurement, so the join of the temperature query contributes the
measurement once when a matching device in the room exists and not at all
otherwise. -/
theorem devFilter_map_const (rid : Nat) (m : MeasRow) :
    ∀ l : List DeviceRow, (l.map DeviceRow.id).Nodup →
      (l.filter (fun d => d.id = m.device ∧ d.room = rid)).map (fun _ => m)
        = if ∃ d ∈ l, d.id = m.device ∧ d.room = rid then [m] else [] := by
  intro l
  induction l with
  | nil => intro h; simp
  | cons d0 ds ih =>
    intro hnodup
    rw [List.map_cons, List.nodup_cons] at hnodup
    obtain ⟨hnotin, hnd⟩ := hnodup
    by_cases hq : d0.id = m.device ∧ d0.room = rid
    · have htail : ds.filter (fun d => d.id = m.device ∧ d.room = rid) = [] := by
        rw [List.filter_eq_nil_iff]
        intro d hd
        simp only [decide_eq_true_eq]
        rintro ⟨hid, hroom⟩
        exact hnotin (List.mem_map.mpr ⟨d, hd, by rw [hid, ← hq.1]⟩)
      rw [List.filter_cons_of_pos (by simpa using hq), htail,
        if_pos ⟨d0, List.mem_cons_self d0 ds, hq⟩]
      rfl
    · rw [List.filter_cons_of_neg (by simpa using hq), ih hnd]
      have hiff : (∃ d ∈ d0 :: ds, d.id = m.device ∧ d.room = rid)
          ↔ (∃ d ∈ ds, d.id = m.device ∧ d.room = rid) := by
        constructor
        · rintro ⟨d, hd, hqd⟩
          rcases List.mem_cons.mp hd with hEq | hmem
          · exact absurd (hEq ▸ hqd) hq
          · exact ⟨d, hmem, hqd⟩
        · rintro ⟨d, hd, hqd⟩
          exact ⟨d, List.mem_cons_of_mem d0 hd, hqd⟩
      simp only [hiff]

/-- With no duplicate device ids, the join of the temperature query is the
filter keeping the measurements of some device in the room. -/
theorem tempJoinRows_eq_filter (db : Database) (rid : Nat)
    (hids : (db.devices.map DeviceRow.id).Nodup) :
    tempJoinRows db rid = db.measurements.filter
      (fun m => decide (∃ d ∈ db.devices, d.id = m.device ∧ d.room = rid)) := by
  unfold tempJoinRows
  suffices h : ∀ ms : List MeasRow, ms.flatMap (fun m =>
      (db.devices.filter (fun d => d.id = m.device ∧ d.room = rid)).map (fun _ => m))
      = ms.filter (fun m => decide (∃ d ∈ db.devices, d.id = m.device ∧ d.room = rid)) by
    exact h db.measurements
  intro ms
  induction ms with
  | nil => rfl
  | cons m ms ih =>
    rw [List.flatMap_cons, List.filter_cons, devFilter_map_const rid m db.devices hids, ih]
    by_cases hex : ∃ d ∈ db.devices, d.id = m.device ∧ d.room = rid
    · rw [if_pos hex, if_pos (by simpa using hex)]
      rfl
    · rw [if_neg hex, if_neg (by simpa using hex)]
      rw [List.nil_append]

/-- The date bucket of the filtered join equals the bucket described by the
claim, when device ids are unique. -/
theorem dateBucket_tempRows (db : Database) (rid : Nat)
    (from_date until_date : Option Date)
    (hids : (db.devices.map DeviceRow.id).Nodup) (k : Date) :
    dateBucket (tempRows db rid from_date until_date) k
      = tempBucketSpec db rid from_date until_date k := by
  unfold dateBucket tempRows tempBucketSpec
  rw [tempJoinRows_eq_filter db rid hids]
  simp only [List.filter_filter]

/-- Claim C6: a pair of a date and a value is in the result of
calc_avg_temperatures_in_room exactly when the room has a persisted id, the
set of measurements of devices located in that room with the exact
temperature unit literal, inside the inclusive day bounds and on that date,
is nonempty, and the value is the average of that set; in particular a room
with no persisted id yields the empty mapping. Unique device ids (the
primary key of the devices table) are assumed. -/
theorem C6_avg_temperatures (db : Database) (room : Room)
    (from_date until_date : Option Date)
    (hids : (db.devices.map DeviceRow.id).Nodup) (k : Date) (a : ℚ) :
    (k, a) ∈ calc_avg_temperatures_in_room db room from_date until_date ↔
      ∃ rid, room.db_id = some rid ∧
        tempBucketSpec db rid from_date until_date k ≠ [] ∧
        a = avgVals (tempBucketSpec db rid from_date until_date k) := by
  cases hdb : room.db_id with
  | none =>
    simp only [calc_avg_temperatures_in_room, hdb]
    simp
  | some rid =>
    simp only [calc_avg_temperatures_in_room, hdb]
    constructor
    · intro hmem
      rw [List.mem_map] at hmem
      obtain ⟨k', hk', heq⟩ := hmem
      have hk : k' = k := congrArg Prod.fst heq
      have ha : avgVals (dateBucket (tempRows db rid from_date until_date) k') = a :=
        congrArg Prod.snd heq
      rw [hk] at hk' ha
      rw [dateBucket_tempRows db rid from_date until_date hids k] at ha
      refine ⟨rid, rfl, ?_, ha.symm⟩
      unfold groupDates at hk'
      rw [List.mem_insertionSort, List.mem_dedup, List.mem_map] at hk'
      obtain ⟨m, hm, hmk⟩ := hk'
      intro hempty
      have hmb : m ∈ dateBucket (tempRows db rid from_date until_date) k :=
        List.mem_filter.mpr ⟨hm, by simpa using hmk⟩
      rw [dateBucket_tempRows db rid from_date until_date hids k, hempty] at hmb
      exact absurd hmb (List.not_mem_nil m)
    · rintro ⟨rid', hrid, hne, ha⟩
      have hr : rid = rid' := Option.some.inj hrid
      rw [← hr] at hne ha
      rw [List.mem_map]
      refine ⟨k, ?_, ?_⟩
      · unfold groupDates
        rw [List.mem_insertionSort, List.mem_dedup, List.mem_map]
        rw [← dateBucket_tempRows db rid from_date until_date hids k] at hne
        obtain ⟨m, hm⟩ := List.exists_mem_of_ne_nil _ hne
        have hm' := List.mem_filter.mp hm
        exact ⟨m, hm'.1, by simpa using hm'.2⟩
      · rw [dateBucket_tempRows db rid from_date until_date hids k, ← ha]

/-- Witness for claim C6: on db6, with three temperature readings 20 and 22 on the
first date and 18 on the second, the result of the query for room 1 with no
bounds maps the first date to 21. -/
theorem C6_avg_temperatures_witness :
    (db6.devices.map DeviceRow.id).Nodup ∧
    (d20240101, (21 : ℚ)) ∈ calc_avg_temperatures_in_room db6 room6 none none := by
  refine ⟨by decide, ?_⟩
  refine (C6_avg_temperatures db6 room6 none none (by decide) d20240101 21).mpr ?_
  refine ⟨1, rfl, by decide, ?_⟩
  norm_num [tempBucketSpec, avgVals, db6, d20240101, d20240102, mkTs,
    tempUnitLiteral, inBounds, List.filter]

/-- Claim C10: on db10, whose device d has two measurement rows sharing the minimal
timestamp, delete_oldest_reading returns a single Measurement value yet
deletes both rows carrying the minimal timestamp: of the three stored rows
only the later one survives. -/
theorem C10_duplicate_min_ts_delete :
    delete_oldest_reading db10 "d" =
      (some ⟨mkTs d20240101 1 0, 5, "%"⟩,
       { db10 with measurements := [⟨"d", mkTs d20240101 3 0, 9, "%"⟩] }) ∧
    (delete_oldest_reading db10 "d").2.measurements.length + 2 =
      db10.measurements.length := by
  constructor <;> decide

end SH
